import Mathlib

/-!
Shallow embedding of the `evo` RPC broker (TypeScript) and proofs about it.

The embedding follows the two implementation layers in `src/src/index.ts`:
the legacy `createClientAPI`/`createServer` pair and the `Contract` class
(`createApi` / `createListener`), together with the capability tables from
the `consts` module.  JavaScript numbers appearing in the engine are
nonnegative integers in every behaviour the claims touch, so they are
modelled as `Nat`; the per-call asynchronous behaviour is modelled as a
state machine over an explicit event list, with promise settlement
attempts recorded in order (the JS promise latch delivers the first one).
-/

namespace Evo

/-- Structured error payload `{message, type}` used in failure envelopes
(`ErrorType` in index.ts). -/
structure ErrorType where
  message : String
  type : String
deriving DecidableEq, Repr

/-- Wire response envelope `RpcResponse` / `ServerResponse`:
`{ok: true, data} | {ok: false, error}`. -/
inductive RpcResponse (α : Type) where
  | ok (data : α)
  | fail (error : ErrorType)
deriving DecidableEq, Repr

/-- The three execution environments (`Environments` enum in index.ts). -/
inductive Env where
  | rs
  | rc
  | ui
deriving DecidableEq, Repr

/-- An entry of a capability table: a legal `{current, target}` pair. -/
structure EnvPair where
  current : Env
  target : Env
deriving DecidableEq, Repr

/-- `PossibleApiCommunication` from consts.ts. -/
def PossibleApiCommunication : List EnvPair :=
  [⟨.rs, .rc⟩, ⟨.rc, .rs⟩, ⟨.ui, .rc⟩]

/-- `PossibleListenersCommunication` from consts.ts. -/
def PossibleListenersCommunication : List EnvPair :=
  [⟨.rs, .rc⟩, ⟨.rc, .rs⟩, ⟨.rc, .ui⟩]

/-- The two wiring kinds (`PossibleEnvsCommunicationKeys`). -/
inductive CommKind where
  | api
  | listener
deriving DecidableEq, Repr

/-- `PossibleEnvsCommunication` table from consts.ts. -/
def PossibleEnvsCommunication : CommKind → List EnvPair
  | .api => PossibleApiCommunication
  | .listener => PossibleListenersCommunication

/-- `Contract.canEnvsCommunicate`: membership test in the relevant table. -/
def canEnvsCommunicate (current target : Env) (type : CommKind) : Bool :=
  (PossibleEnvsCommunication type).any
    (fun p => p.current == current && p.target == target)

/-- `RetryOptions` of the `Contract` class: `delay` is optional
(JS `undefined` modelled as `none`), `max` mandatory, `forceDelay` optional
(absent behaves as `false` in the guard, so it is a plain `Bool` here). -/
structure RetryOptions where
  delay : Option Nat
  max : Nat
  forceDelay : Bool
deriving DecidableEq, Repr

/-- Default retry options destructured in `Contract.createApi`:
`{ max: 0, delay: 1000, forceDelay: false }`. -/
def defaultRetryOptions : RetryOptions :=
  { delay := some 1000, max := 0, forceDelay := false }

/-- The guard `retryOptions.delay! < 500`: in JS, `undefined < 500` is
`false`, so an absent delay is never clamped. -/
def delayBelow500 (delay : Option Nat) : Bool :=
  match delay with
  | some d => d < 500
  | none => false

/-- The two `console.warn` side effects of the clamping code. -/
inductive WarnKind where
  | delayClamped
  | maxClamped
deriving DecidableEq, Repr

/-- The clamping performed inline at the top of the `Contract.createApi`
method loop: delay below 500 without `forceDelay` is set back to 500 with a
warning, `max` above 10 is set back to 10 with a warning.  Returns the
options that govern the call together with the warnings emitted. -/
def clampRetryOptions (ro : RetryOptions) : RetryOptions × List WarnKind :=
  let step1 :=
    if delayBelow500 ro.delay && !ro.forceDelay then
      ({ ro with delay := some 500 }, [WarnKind.delayClamped])
    else (ro, ([] : List WarnKind))
  let step2 :=
    if step1.1.max > 10 then
      ({ step1.1 with max := 10 }, step1.2 ++ [WarnKind.maxClamped])
    else step1
  step2

/-- `ContractMethodValue` of the `Contract` class: argument and return
schemas are opaque tokens (their parsing behaviour is passed separately
where needed), `retryOptions` optional. -/
structure MethodSpec where
  args : Option Nat
  returns : Option Nat
  retryOptions : Option RetryOptions
deriving DecidableEq, Repr

/-- The retry options in force for one method inside `Contract.createApi`:
the declared options (or the destructuring default) after clamping. -/
def createApiRetryOptions (m : MethodSpec) : RetryOptions :=
  (clampRetryOptions (m.retryOptions.getD defaultRetryOptions)).1

/-- Effect of one `Contract.createApi` call on one stored method spec:
when `retryOptions` is declared, the clamping assignments mutate that very
object in place, so the stored spec afterwards holds the clamped values;
when it is absent, a fresh default object is clamped and the stored spec is
untouched. -/
def createApiSpecEffect (m : MethodSpec) : MethodSpec :=
  match m.retryOptions with
  | none => m
  | some ro => { m with retryOptions := some (clampRetryOptions ro).1 }

/-- Effect of one `Contract.createApi` call on the whole stored contract. -/
def createApiContractEffect (c : List (String × MethodSpec)) :
    List (String × MethodSpec) :=
  c.map (fun e => (e.1, createApiSpecEffect e.2))

/-- A promise settlement attempt issued by the engine (`resolve`/`reject`
call).  The JS promise latch delivers only the first attempt to the
caller. -/
inductive Settle (ρ : Type) where
  | resolve (v : ρ)
  | reject (e : ErrorType)
deriving DecidableEq, Repr

/-- One transport emission of the request for a call: the wire event name
and the correlation id (`responseEvent`) it carries, if any.  The
publish/subscribe emissions (`emitNet`) carry the `responseEvent`; the
UI `fetchNui` post carries none (it only posts the parsed arguments to
the wire name's URL). -/
structure Dispatch where
  eventName : String
  corrId : Option String
deriving DecidableEq, Repr

/-- Mutable per-call state of one pub/sub API invocation: the
`didTimedOut` latch, the `retrysCount` counter, whether the
`responseEvent` handler is still registered and the `_timeout` timer still
pending, the legacy `onceRequests` bookkeeping for this method, and the
ordered settlement attempts and transport emissions so far. -/
structure CallState (α : Type) where
  didTimedOut : Bool
  retrysCount : Nat
  handlerRegistered : Bool
  timerPending : Bool
  onceAdded : Bool
  settles : List (Settle α)
  dispatches : List Dispatch
deriving DecidableEq, Repr

/-- Events delivered to a pending pub/sub call: an inbound response on the
correlation event, or the deadline timer firing. -/
inductive CallEvent (α : Type) where
  | response (r : RpcResponse α)
  | timeoutFire
deriving DecidableEq, Repr

/-- `responseEventHandler`: embeds both the handler in `createClientAPI`
(where `onceFlag` is the method's `once` and a success adds the method to
`onceRequests`) and the handler in `Contract.createApi` (which has no once
bookkeeping; instantiate `onceFlag := false`).  On a success envelope it
resolves with the `data` field, deregisters itself and clears the timer;
on a failure envelope it re-dispatches under the same correlation id while
retry budget remains, else rejects with the carried error — performing no
teardown on that path, exactly as the source. -/
def responseEventHandler {α : Type} (onceFlag : Bool) (ro : RetryOptions)
    (dispatchName corrId : String) (st : CallState α) (r : RpcResponse α) :
    CallState α :=
  if st.didTimedOut then st
  else
    match r with
    | .ok d =>
        { st with
          onceAdded := st.onceAdded || onceFlag,
          settles := st.settles ++ [Settle.resolve d],
          handlerRegistered := false,
          timerPending := false }
    | .fail e =>
        if ro.max > 0 && st.retrysCount < ro.max then
          { st with
            retrysCount := st.retrysCount + 1,
            dispatches := st.dispatches ++ [⟨dispatchName, some corrId⟩] }
        else
          { st with settles := st.settles ++ [Settle.reject e] }

/-- The `ErrorType`-shaped timeout rejection payload. -/
def timeoutErrorFor (rpcName : String) : ErrorType :=
  ⟨s!"{rpcName} has timed out !", "EvoTimeoutError"⟩

/-- The `_timeout` callback: sets the `didTimedOut` latch, deregisters the
response handler and rejects with the timeout error. -/
def timeoutFireStep {α : Type} (rpcName : String) (st : CallState α) : CallState α :=
  { st with
    didTimedOut := true,
    timerPending := false,
    handlerRegistered := false,
    settles := st.settles ++ [Settle.reject (timeoutErrorFor rpcName)] }

/-- Deliver one event to a pending call: a response reaches the handler
only while it is registered; the timer callback runs only if the timer was
not cleared. -/
def stepEvent {α : Type} (onceFlag : Bool) (ro : RetryOptions)
    (rpcName dispatchName corrId : String) (st : CallState α)
    (ev : CallEvent α) : CallState α :=
  match ev with
  | .response r =>
      if st.handlerRegistered then
        responseEventHandler onceFlag ro dispatchName corrId st r
      else st
  | .timeoutFire =>
      if st.timerPending then timeoutFireStep rpcName st else st

/-- State of a pub/sub call right after `subscribe(responseEvent, handler)`
and the initial `fire`: timer armed, handler registered, one dispatch
carrying the correlation id. -/
def initCallState {α : Type} (dispatchName corrId : String) : CallState α :=
  { didTimedOut := false, retrysCount := 0, handlerRegistered := true,
    timerPending := true, onceAdded := false,
    settles := [], dispatches := [⟨dispatchName, some corrId⟩] }

/-- Run one pub/sub call of `Contract.createApi` (after successful
argument validation) over an event list. -/
def runCall {α : Type} (onceFlag : Bool) (ro : RetryOptions)
    (rpcName dispatchName corrId : String) (evs : List (CallEvent α)) :
    CallState α :=
  evs.foldl (stepEvent onceFlag ro rpcName dispatchName corrId)
    (initCallState dispatchName corrId)

/-- The terminal outcome delivered to the caller: the first settlement
attempt (JS promises latch on the first `resolve`/`reject`). -/
def outcome {α : Type} (st : CallState α) : Option (Settle α) :=
  st.settles.head?

/-- One invocation of a `Contract.createApi` method on a pub/sub pair,
including argument validation.  In the source the `_timeout` is armed and
then `await getParsedArgs(...)` runs with NO try/catch inside the
`new Promise(async (resolve, reject) => ...)` executor: a validation
failure therefore rejects only the executor's own async-function promise
(which is swallowed), so no subscribe and no fire ever happen, and when
the armed timer later fires its callback reads the `const
responseEventHandler` binding before its initialization (temporal dead
zone), throwing a ReferenceError before reaching `reject` — the outer
promise never settles at all.  The `.error` branch records exactly that:
no settlement attempts, no dispatches, subsequent events unconsumed. -/
def contractApiCall {α : Type} (m : MethodSpec) (rpcName rpcEventName corrId : String)
    (validation : Except ErrorType Unit) (evs : List (CallEvent α)) :
    CallState α :=
  match validation with
  | .error _ =>
      { didTimedOut := false, retrysCount := 0, handlerRegistered := false,
        timerPending := true, onceAdded := false,
        settles := [], dispatches := [] }
  | .ok _ => runCall false (createApiRetryOptions m) rpcName rpcEventName corrId evs

/-- The `EvoOnceError` rejection of `createClientAPI`. -/
def onceErrorFor (methodName : String) : ErrorType :=
  ⟨s!"Trying to call an event that is once and already executed {methodName}",
    "EvoOnceError"⟩

/-- One invocation of a legacy `createClientAPI` method.  The once-check
calls `reject(new EvoOnceError(...))` but is NOT followed by a `return`,
so execution falls through into the try block regardless: `pre` records
that rejection and the rest proceeds.  Validation runs first inside the
try; a failure is caught and rejected before the timer is armed or
anything is dispatched.  On success the timer is armed, the handler
subscribed and the request emitted, then events are processed by
`responseEventHandler` with the method's `once` flag. -/
def clientAPICall {α : Type} (onceFlag alreadyExecuted : Bool) (ro : RetryOptions)
    (methodName corrId : String) (validation : Except ErrorType Unit)
    (evs : List (CallEvent α)) : CallState α :=
  let pre : List (Settle α) :=
    if alreadyExecuted then [Settle.reject (onceErrorFor methodName)] else []
  match validation with
  | .error e =>
      { didTimedOut := false, retrysCount := 0, handlerRegistered := false,
        timerPending := false, onceAdded := false,
        settles := pre ++ [Settle.reject e], dispatches := [] }
  | .ok _ =>
      evs.foldl (stepEvent onceFlag ro methodName methodName corrId)
        { @initCallState α methodName corrId with settles := pre }

/-- What a UI-path promise is resolved with: `resolve(retryRes.data)`
passes the data field, `resolve(res)` passes the whole envelope. -/
inductive UiVal (α : Type) where
  | data (d : α)
  | envelope (r : RpcResponse α)
deriving DecidableEq, Repr

/-- A `fetchNui` post: only the wire name and the parsed arguments; no
correlation id travels on this channel. -/
def uiDispatch (rpcEventName : String) : Dispatch :=
  ⟨rpcEventName, none⟩

/-- The `while (retrysCount < retryOptions.max)` await-loop of the
`ui -> rc` branch of `Contract.createApi`.  `resp i` is the envelope the
remote answers to the i-th dispatch (0 = initial).  `count` is the current
`retrysCount`; `fuel` bounds the remaining iterations (`max - count` at
every real call site).  A retry success resolves with `retryRes.data`; a
failure when `retrysCount === max` rejects with that failure's error. -/
def uiRetryLoop {α : Type} (max : Nat) (resp : Nat → RpcResponse α)
    (rpcEventName : String) :
    Nat → Nat → List Dispatch × Option (Settle (UiVal α))
  | _count, 0 => ([], none)
  | count, fuel + 1 =>
      match resp (count + 1) with
      | .ok d =>
          ([uiDispatch rpcEventName], some (Settle.resolve (UiVal.data d)))
      | .fail e =>
          if count + 1 == max then
            ([uiDispatch rpcEventName], some (Settle.reject e))
          else
            let rest := uiRetryLoop max resp rpcEventName (count + 1) fuel
            (uiDispatch rpcEventName :: rest.1, rest.2)

/-- The `ui -> rc` branch of a `Contract.createApi` invocation: fire the
initial request and await its envelope; if `didTimedOut` was latched
during that await, return without settling (the timeout rejection stands);
an initial success resolves with the WHOLE envelope (`resolve(res)`); an
initial failure with `max <= 0` rejects with its error; otherwise the
retry loop runs.  Returns the dispatches made and the settlement attempt,
if any. -/
def uiCall {α : Type} (max : Nat) (resp : Nat → RpcResponse α) (rpcEventName : String)
    (timedOutBeforeResponse : Bool) :
    List Dispatch × Option (Settle (UiVal α)) :=
  if timedOutBeforeResponse then ([uiDispatch rpcEventName], none)
  else
    match resp 0 with
    | .ok d =>
        ([uiDispatch rpcEventName],
          some (Settle.resolve (UiVal.envelope (RpcResponse.ok d))))
    | .fail e =>
        if max == 0 then ([uiDispatch rpcEventName], some (Settle.reject e))
        else
          let rest := uiRetryLoop max resp rpcEventName 0 max
          (uiDispatch rpcEventName :: rest.1, rest.2)

/-- Result of handling one inbound listener request: the envelope sent
back over the transport, and whether the user handler was invoked. -/
structure ListenerResult (α : Type) where
  sent : RpcResponse α
  handlerInvoked : Bool
deriving DecidableEq, Repr

/-- The `callback` of `Contract.createListener`, used on the (rs,rc) and
(rc,rs) pairs: parse the inbound arguments through the declared schema if
any; a parse failure is caught and fired back as a failure envelope
without invoking the handler; otherwise the handler runs and its result or
thrown error is fired back as an envelope. -/
def listenerCallbackRun {α β γ : Type} (validator : Option (β → Except ErrorType γ))
    (handler : Option γ → Except ErrorType α) (args : β) :
    ListenerResult α :=
  match validator with
  | some v =>
      match v args with
      | .error e => { sent := RpcResponse.fail e, handlerInvoked := false }
      | .ok p =>
          match handler (some p) with
          | .ok d => { sent := RpcResponse.ok d, handlerInvoked := true }
          | .error e => { sent := RpcResponse.fail e, handlerInvoked := true }
  | none =>
      match handler none with
      | .ok d => { sent := RpcResponse.ok d, handlerInvoked := true }
      | .error e => { sent := RpcResponse.fail e, handlerInvoked := true }

/-- The `nuiCallback` of `Contract.createListener`, used on the (rc,ui)
pair: it never consults the declared argument schema (the `_validator`
parameter is deliberately unused, mirroring the source, where `argsSchema`
is in scope but `nuiCallback` calls `rpcMethod(args)` on the raw
arguments); the handler's result or thrown error is sent back through
`cb` as an envelope. -/
def nuiCallbackRun {α β : Type} (_validator : Option (β → Except ErrorType β))
    (handler : β → Except ErrorType α) (args : β) : ListenerResult α :=
  match handler args with
  | .ok d => { sent := RpcResponse.ok d, handlerInvoked := true }
  | .error e => { sent := RpcResponse.fail e, handlerInvoked := true }

/-- The three setup-phase error kinds of `createApi`/`createListener`. -/
inductive SetupError where
  | notBuilt
  | envMismatch
  | commNotAllowed
deriving DecidableEq, Repr

/-- Environment name on the wire. -/
def Env.str : Env → String
  | .rs => "rs"
  | .rc => "rc"
  | .ui => "ui"

/-- Wire name built by `Contract.createApi` for one method. -/
def apiWireName (target : Env) (rpcName : String) (current : Env)
    (contractUuid : Nat) : String :=
  s!"{target.str}::{rpcName}::{current.str}::{contractUuid}"

/-- Wire name built by `Contract.createListener` for one method. -/
def listenerWireName (current : Env) (rpcName : String) (target : Env)
    (contractUuid : Nat) : String :=
  s!"{current.str}::{rpcName}::{target.str}::{contractUuid}"

/-- Check phase of `Contract.createApi`: built, then real-environment
match, then the "api" capability table.  On success returns the wire names
of the callables created; on any error the method loop never runs, so no
callable exists and nothing can ever be dispatched.  No transport
interaction happens during setup on this path either way. -/
def createApiSetup (builded : Bool) (realEnv current target : Env)
    (methodNames : List String) (contractUuid : Nat) :
    Except SetupError (List String) :=
  if !builded then Except.error SetupError.notBuilt
  else if realEnv != current then Except.error SetupError.envMismatch
  else if !(canEnvsCommunicate current target CommKind.api) then
    Except.error SetupError.commNotAllowed
  else
    Except.ok (methodNames.map
      (fun n => apiWireName target n current contractUuid))

/-- Check phase of `Contract.createListener`: built, then the "listener"
capability table, then real-environment match.  The second component lists
the `subscribe` calls made on the transport: empty whenever a check
fails. -/
def createListenerSetup (builded : Bool) (realEnv current target : Env)
    (methodNames : List String) (contractUuid : Nat) :
    Except SetupError Unit × List String :=
  if !builded then (Except.error SetupError.notBuilt, [])
  else if !(canEnvsCommunicate current target CommKind.listener) then
    (Except.error SetupError.commNotAllowed, [])
  else if realEnv != current then (Except.error SetupError.envMismatch, [])
  else
    (Except.ok (),
      methodNames.map (fun n => listenerWireName current n target contractUuid))

/-- Retry options that the clamping code leaves untouched: delay not below
500 (or `forceDelay` set) and max at most 10. -/
def retryOptionsInRange (ro : RetryOptions) : Prop :=
  (delayBelow500 ro.delay = false ∨ ro.forceDelay = true) ∧ ro.max ≤ 10

/-- `n` failure-response events whose carried errors are `errs s`,
`errs (s+1)`, ... -/
def failEvents {α : Type} (errs : Nat → ErrorType) :
    Nat → Nat → List (CallEvent α)
  | _s, 0 => []
  | s, n + 1 =>
      CallEvent.response (RpcResponse.fail (errs s)) :: failEvents errs (s + 1) n

lemma foldl_failEvents {α : Type} (onceFlag : Bool) (ro : RetryOptions)
    (rpcName dispatchName corrId : String) (errs : Nat → ErrorType) :
    ∀ (n s : Nat) (st : CallState α),
      st.didTimedOut = false → st.handlerRegistered = true →
      st.retrysCount + n = ro.max →
      (failEvents errs s (n + 1)).foldl
          (stepEvent onceFlag ro rpcName dispatchName corrId) st =
        { st with
          retrysCount := ro.max,
          dispatches := st.dispatches ++
            List.replicate n ⟨dispatchName, some corrId⟩,
          settles := st.settles ++ [Settle.reject (errs (s + n))] } := by
  intro n
  induction n with
  | zero =>
      intro s st hdt hreg hcnt
      simp only [failEvents, List.foldl_cons, List.foldl_nil, stepEvent, hreg,
        if_true, responseEventHandler, hdt]
      have hcond : (decide (ro.max > 0) && decide (st.retrysCount < ro.max)) = false := by
        simp only [Nat.add_zero] at hcnt
        simp [hcnt]
      simp only [Bool.false_eq_true, if_false, hcond]
      simp only [Nat.add_zero] at hcnt
      simp [hcnt]
  | succ n ih =>
      intro s st hdt hreg hcnt
      have hcond : (decide (ro.max > 0) && decide (st.retrysCount < ro.max)) = true := by
        simp only [Bool.and_eq_true, decide_eq_true_eq]
        omega
      have hstep : stepEvent onceFlag ro rpcName dispatchName corrId st
          (CallEvent.response (RpcResponse.fail (errs s))) =
          { st with
            retrysCount := st.retrysCount + 1,
            dispatches := st.dispatches ++ [⟨dispatchName, some corrId⟩] } := by
        simp only [stepEvent, hreg, if_true, responseEventHandler, hdt]
        simp [hcond]
      rw [show (failEvents errs s (n + 1 + 1) : List (CallEvent α)) =
            CallEvent.response (RpcResponse.fail (errs s)) ::
              failEvents errs (s + 1) (n + 1) from rfl,
        List.foldl_cons, hstep,
        ih (s + 1)
          { st with
            retrysCount := st.retrysCount + 1,
            dispatches := st.dispatches ++ [⟨dispatchName, some corrId⟩] }
          hdt hreg (by simp only []; omega)]
      have harith : s + 1 + n = s + (n + 1) := by omega
      simp [List.replicate_succ, List.append_assoc, harith]

lemma stepEvent_dispatch_inv {α : Type} (onceFlag : Bool) (ro : RetryOptions)
    (rpcName dispatchName corrId : String) (st : CallState α) (ev : CallEvent α)
    (h1 : st.dispatches.length = 1 + st.retrysCount)
    (h2 : st.retrysCount ≤ ro.max) :
    (stepEvent onceFlag ro rpcName dispatchName corrId st ev).dispatches.length =
        1 + (stepEvent onceFlag ro rpcName dispatchName corrId st ev).retrysCount ∧
      (stepEvent onceFlag ro rpcName dispatchName corrId st ev).retrysCount ≤
        ro.max := by
  rcases ev with r | _
  · simp only [stepEvent]
    split
    · rcases r with d | e <;> simp only [responseEventHandler] <;> split
      · exact ⟨h1, h2⟩
      · exact ⟨h1, h2⟩
      · exact ⟨h1, h2⟩
      · split
        · rename_i hcond
          simp only [Bool.and_eq_true, decide_eq_true_eq] at hcond
          refine ⟨?_, ?_⟩ <;> simp [h1] <;> omega
        · exact ⟨h1, h2⟩
    · exact ⟨h1, h2⟩
  · simp only [stepEvent]
    split
    · simp only [timeoutFireStep]
      exact ⟨h1, h2⟩
    · exact ⟨h1, h2⟩

lemma foldl_dispatch_inv {α : Type} (onceFlag : Bool) (ro : RetryOptions)
    (rpcName dispatchName corrId : String) :
    ∀ (evs : List (CallEvent α)) (st : CallState α),
      st.dispatches.length = 1 + st.retrysCount → st.retrysCount ≤ ro.max →
      (evs.foldl (stepEvent onceFlag ro rpcName dispatchName corrId)
            st).dispatches.length =
          1 + (evs.foldl (stepEvent onceFlag ro rpcName dispatchName corrId)
            st).retrysCount ∧
        (evs.foldl (stepEvent onceFlag ro rpcName dispatchName corrId)
            st).retrysCount ≤ ro.max := by
  intro evs
  induction evs with
  | nil => intro st h1 h2; exact ⟨h1, h2⟩
  | cons e es ih =>
      intro st h1 h2
      have h := stepEvent_dispatch_inv onceFlag ro rpcName dispatchName corrId
        st e h1 h2
      simpa using ih _ h.1 h.2

/-- A pub/sub call never dispatches more than `ro.max + 1` times, whatever
events arrive. -/
lemma runCall_dispatch_le {α : Type} (onceFlag : Bool) (ro : RetryOptions)
    (rpcName dispatchName corrId : String) (evs : List (CallEvent α)) :
    (runCall onceFlag ro rpcName dispatchName corrId evs).dispatches.length ≤
      ro.max + 1 := by
  have h := foldl_dispatch_inv onceFlag ro rpcName dispatchName corrId evs
    (initCallState dispatchName corrId) (by simp [initCallState])
    (by simp [initCallState])
  unfold runCall
  omega

lemma uiRetryLoop_fail {α : Type} (max : Nat) (errs : Nat → ErrorType)
    (en : String) :
    ∀ (fuel count : Nat), count + fuel = max → 1 ≤ fuel →
      uiRetryLoop max (fun i => (RpcResponse.fail (errs i) : RpcResponse α))
          en count fuel =
        (List.replicate fuel (uiDispatch en), some (Settle.reject (errs max))) := by
  intro fuel
  induction fuel with
  | zero => intro count _ h1; omega
  | succ f ih =>
      intro count hsum _
      by_cases hc : count + 1 = max
      · have hf : f = 0 := by omega
        subst hf
        simp [uiRetryLoop, hc]
      · have hf1 : 1 ≤ f := by omega
        have heq : (count + 1 == max) = false := by
          simp [hc]
        rw [show uiRetryLoop max
              (fun i => (RpcResponse.fail (errs i) : RpcResponse α)) en count
              (f + 1) =
            (uiDispatch en ::
              (uiRetryLoop max
                (fun i => (RpcResponse.fail (errs i) : RpcResponse α)) en
                (count + 1) f).1,
              (uiRetryLoop max
                (fun i => (RpcResponse.fail (errs i) : RpcResponse α)) en
                (count + 1) f).2) from by simp [uiRetryLoop, heq]]
        rw [ih (count + 1) (by omega) hf1]
        simp [List.replicate_succ]

lemma uiRetryLoop_length_le {α : Type} (max : Nat) (resp : Nat → RpcResponse α)
    (en : String) :
    ∀ (fuel count : Nat),
      (uiRetryLoop max resp en count fuel).1.length ≤ fuel := by
  intro fuel
  induction fuel with
  | zero => intro count; simp [uiRetryLoop]
  | succ f ih =>
      intro count
      simp only [uiRetryLoop]
      cases resp (count + 1) with
      | ok d => simp
      | fail e =>
          by_cases hc : (count + 1 == max) = true
          · simp [hc]
          · simp only [Bool.not_eq_true] at hc
            simp only [hc, Bool.false_eq_true, if_false, List.length_cons]
            have := ih (count + 1)
            omega

/-- Whatever the remote answers, the ui -> rc branch dispatches at most
`max + 1` times. -/
lemma uiCall_dispatch_le {α : Type} (max : Nat) (resp : Nat → RpcResponse α)
    (en : String) (t : Bool) :
    (uiCall max resp en t).1.length ≤ max + 1 := by
  unfold uiCall
  split
  · simp
  · cases resp 0 with
    | ok d => simp
    | fail e =>
        by_cases hm : (max == 0) = true
        · simp [hm]
        · simp only [Bool.not_eq_true] at hm
          simp only [hm, Bool.false_eq_true, if_false, List.length_cons]
          have := uiRetryLoop_length_le max resp en max 0
          omega

lemma stepEvent_settles_le {α : Type} (onceFlag : Bool) (ro : RetryOptions)
    (rpcName dispatchName corrId : String) (st : CallState α)
    (ev : CallEvent α) :
    st.settles.length ≤
      (stepEvent onceFlag ro rpcName dispatchName corrId st ev).settles.length := by
  rcases ev with r | _
  · simp only [stepEvent]
    split
    · rcases r with d | e <;> simp only [responseEventHandler] <;> split
      · exact Nat.le_refl _
      · simp
      · exact Nat.le_refl _
      · split
        · simp
        · simp
    · exact Nat.le_refl _
  · simp only [stepEvent]
    split
    · simp [timeoutFireStep]
    · exact Nat.le_refl _

lemma foldl_settles_le {α : Type} (onceFlag : Bool) (ro : RetryOptions)
    (rpcName dispatchName corrId : String) :
    ∀ (evs : List (CallEvent α)) (st : CallState α),
      st.settles.length ≤
        (evs.foldl (stepEvent onceFlag ro rpcName dispatchName corrId)
          st).settles.length := by
  intro evs
  induction evs with
  | nil => intro st; exact Nat.le_refl _
  | cons e es ih =>
      intro st
      exact Nat.le_trans
        (stepEvent_settles_le onceFlag ro rpcName dispatchName corrId st e)
        (ih _)

/-- Processing responses that settle nothing leaves the latch clear, the
handler registered and the timer pending. -/
lemma respFold_no_settle {α : Type} (onceFlag : Bool) (ro : RetryOptions)
    (rpcName dispatchName corrId : String) :
    ∀ (rs : List (RpcResponse α)) (st : CallState α),
      st.didTimedOut = false → st.handlerRegistered = true →
      st.timerPending = true →
      ((rs.map CallEvent.response).foldl
          (stepEvent onceFlag ro rpcName dispatchName corrId) st).settles =
        st.settles →
      ((rs.map CallEvent.response).foldl
            (stepEvent onceFlag ro rpcName dispatchName corrId) st).didTimedOut =
          false ∧
        ((rs.map CallEvent.response).foldl
            (stepEvent onceFlag ro rpcName dispatchName corrId)
            st).handlerRegistered = true ∧
        ((rs.map CallEvent.response).foldl
            (stepEvent onceFlag ro rpcName dispatchName corrId)
            st).timerPending = true := by
  intro rs
  induction rs with
  | nil =>
      intro st hdt hreg htp _
      exact ⟨hdt, hreg, htp⟩
  | cons r rs ih =>
      intro st hdt hreg htp hset
      rcases r with d | e
      · exfalso
        have hstep : (stepEvent onceFlag ro rpcName dispatchName corrId st
            (CallEvent.response (RpcResponse.ok d))).settles =
            st.settles ++ [Settle.resolve d] := by
          simp [stepEvent, hreg, responseEventHandler, hdt]
        have hmono := foldl_settles_le onceFlag ro rpcName dispatchName corrId
          (rs.map CallEvent.response)
          (stepEvent onceFlag ro rpcName dispatchName corrId st
            (CallEvent.response (RpcResponse.ok d)))
        rw [hstep] at hmono
        simp only [List.map_cons, List.foldl_cons] at hset
        rw [hset] at hmono
        simp at hmono
      · by_cases hcond :
          (decide (ro.max > 0) && decide (st.retrysCount < ro.max)) = true
        · have hstep : stepEvent onceFlag ro rpcName dispatchName corrId st
              (CallEvent.response (RpcResponse.fail e)) =
              { st with
                retrysCount := st.retrysCount + 1,
                dispatches := st.dispatches ++ [⟨dispatchName, some corrId⟩] } := by
            simp only [stepEvent, hreg, if_true, responseEventHandler, hdt]
            simp [hcond]
          simp only [List.map_cons, List.foldl_cons] at hset ⊢
          rw [hstep] at hset ⊢
          exact ih _ hdt hreg htp hset
        · exfalso
          have hstep : (stepEvent onceFlag ro rpcName dispatchName corrId st
              (CallEvent.response (RpcResponse.fail e))).settles =
              st.settles ++ [Settle.reject e] := by
            simp only [stepEvent, hreg, if_true, responseEventHandler, hdt]
            simp [hcond]
          have hmono := foldl_settles_le onceFlag ro rpcName dispatchName corrId
            (rs.map CallEvent.response)
            (stepEvent onceFlag ro rpcName dispatchName corrId st
              (CallEvent.response (RpcResponse.fail e)))
          rw [hstep] at hmono
          simp only [List.map_cons, List.foldl_cons] at hset
          rw [hset] at hmono
          simp at hmono

/-- Once the response handler is deregistered, inbound responses change
nothing. -/
lemma respFold_inert {α : Type} (onceFlag : Bool) (ro : RetryOptions)
    (rpcName dispatchName corrId : String) :
    ∀ (rs : List (RpcResponse α)) (st : CallState α),
      st.handlerRegistered = false →
      (rs.map CallEvent.response).foldl
          (stepEvent onceFlag ro rpcName dispatchName corrId) st = st := by
  intro rs
  induction rs with
  | nil => intro st _; rfl
  | cons r rs ih =>
      intro st hreg
      have hstep : stepEvent onceFlag ro rpcName dispatchName corrId st
          (CallEvent.response r) = st := by
        simp [stepEvent, hreg]
      simp only [List.map_cons, List.foldl_cons, hstep]
      exact ih st hreg

lemma canEnvsCommunicate_mem (current target : Env) (k : CommKind) :
    canEnvsCommunicate current target k =
      decide ((⟨current, target⟩ : EnvPair) ∈ PossibleEnvsCommunication k) := by
  cases current <;> cases target <;> cases k <;> rfl

lemma clampRetryOptions_inRange (ro : RetryOptions)
    (h : retryOptionsInRange ro) : clampRetryOptions ro = (ro, []) := by
  obtain ⟨h1, h2⟩ := h
  unfold clampRetryOptions
  have hc1 : (delayBelow500 ro.delay && !ro.forceDelay) = false := by
    rcases h1 with h | h <;> simp [h]
  simp only [hc1, Bool.false_eq_true, if_false]
  have hc2 : ¬ ro.max > 10 := by omega
  simp [hc2]

/-- Claim C6: the capability tables are exactly
api = {(rs,rc), (rc,rs), (ui,rc)} and
listener = {(rs,rc), (rc,rs), (rc,ui)}; for every built contract and every
(current,target) pair not in the relevant table — with the real
environment equal to `currentEnv` — `createApi` (resp. `createListener`)
fails with the communication-not-allowed error (`EvoCommunicationError`)
and performs no transport interaction (no callable is produced, no
subscription is made). -/
theorem evoC6 :
    (PossibleEnvsCommunication CommKind.api =
        [⟨Env.rs, Env.rc⟩, ⟨Env.rc, Env.rs⟩, ⟨Env.ui, Env.rc⟩] ∧
      PossibleEnvsCommunication CommKind.listener =
        [⟨Env.rs, Env.rc⟩, ⟨Env.rc, Env.rs⟩, ⟨Env.rc, Env.ui⟩]) ∧
    ∀ (current target : Env) (methodNames : List String) (contractUuid : Nat),
      ((⟨current, target⟩ : EnvPair) ∉ PossibleEnvsCommunication CommKind.api →
        createApiSetup true current current target methodNames contractUuid =
          Except.error SetupError.commNotAllowed) ∧
      ((⟨current, target⟩ : EnvPair) ∉
          PossibleEnvsCommunication CommKind.listener →
        createListenerSetup true current current target methodNames
            contractUuid =
          (Except.error SetupError.commNotAllowed, [])) := by
  refine ⟨⟨rfl, rfl⟩, ?_⟩
  intro current target methodNames contractUuid
  constructor
  · intro h
    have hc : canEnvsCommunicate current target CommKind.api = false := by
      rw [canEnvsCommunicate_mem]
      simpa using h
    simp [createApiSetup, hc]
  · intro h
    have hc : canEnvsCommunicate current target CommKind.listener = false := by
      rw [canEnvsCommunicate_mem]
      simpa using h
    simp [createListenerSetup, hc]

/-- Witness for C6 at the illegal pair (ui, rs). -/
theorem evoC6_witness :
    ((⟨Env.ui, Env.rs⟩ : EnvPair) ∉ PossibleEnvsCommunication CommKind.api) ∧
      createApiSetup true Env.ui Env.ui Env.rs ["m"] 1 =
        Except.error SetupError.commNotAllowed ∧
      ((⟨Env.ui, Env.rs⟩ : EnvPair) ∉
        PossibleEnvsCommunication CommKind.listener) ∧
      createListenerSetup true Env.ui Env.ui Env.rs ["m"] 1 =
        (Except.error SetupError.commNotAllowed, []) :=
  ⟨by decide, (evoC6.2 Env.ui Env.rs ["m"] 1).1 (by decide),
    by decide, (evoC6.2 Env.ui Env.rs ["m"] 1).2 (by decide)⟩

/-- Claim C9: for every method processed by `Contract.createApi`, a retry
delay below 500 without `forceDelay` is clamped to 500 with a console
warning; a retry max above 10 is clamped to 10 with a console warning;
neither clamping rejects anything, and the clamped options are exactly the
ones that govern the retry loop (with max clamped to 10, an all-failure
run dispatches 11 times). -/
theorem evoC9 (ro : RetryOptions) (m : MethodSpec) :
    (delayBelow500 ro.delay = true → ro.forceDelay = false →
      (clampRetryOptions ro).1.delay = some 500 ∧
        WarnKind.delayClamped ∈ (clampRetryOptions ro).2) ∧
    (10 < ro.max →
      (clampRetryOptions ro).1.max = 10 ∧
        WarnKind.maxClamped ∈ (clampRetryOptions ro).2) ∧
    (m.retryOptions = some ro →
      createApiRetryOptions m = (clampRetryOptions ro).1) ∧
    (10 < ro.max → m.retryOptions = some ro →
      ∀ (errs : Nat → ErrorType) (rpcName dispatchName corrId : String),
        (runCall false (createApiRetryOptions m) rpcName dispatchName corrId
            (failEvents errs 0 11 : List (CallEvent Nat))).dispatches.length =
          11) := by
  have hmaxeq : (clampRetryOptions ro).1.max =
      if ro.max > 10 then 10 else ro.max := by
    by_cases hm : 10 < ro.max <;>
      by_cases hd : (delayBelow500 ro.delay && !ro.forceDelay) = true
    · simp [clampRetryOptions, hd, hm]
    · simp only [Bool.not_eq_true] at hd
      simp [clampRetryOptions, hd, hm]
    · simp [clampRetryOptions, hd, hm]
    · simp only [Bool.not_eq_true] at hd
      simp [clampRetryOptions, hd, hm]
  refine ⟨?_, ?_, ?_, ?_⟩
  · intro h1 h2
    unfold clampRetryOptions
    have hc : (delayBelow500 ro.delay && !ro.forceDelay) = true := by
      simp [h1, h2]
    simp only [hc, if_true]
    split <;> simp
  · intro h
    refine ⟨?_, ?_⟩
    · rw [hmaxeq, if_pos h]
    · unfold clampRetryOptions
      split <;> simp_all
  · intro h
    simp [createApiRetryOptions, h]
  · intro hmax hsome errs rpcName dispatchName corrId
    have hro : createApiRetryOptions m = (clampRetryOptions ro).1 := by
      simp [createApiRetryOptions, hsome]
    have hm10 : (createApiRetryOptions m).max = 10 := by
      rw [hro, hmaxeq, if_pos hmax]
    have h := foldl_failEvents (α := Nat) false (createApiRetryOptions m)
      rpcName dispatchName corrId errs 10 0
      (initCallState dispatchName corrId) rfl rfl
      (by simp [initCallState, hm10])
    unfold runCall
    rw [show (failEvents errs 0 11 : List (CallEvent Nat)) =
        failEvents errs 0 (10 + 1) from rfl, h]
    simp [initCallState]

/-- Witness for C9 at out-of-range options delay 100 and max 15. -/
theorem evoC9_witness :
    (delayBelow500 (some 100) = true ∧ (10 : Nat) < 15) ∧
      (clampRetryOptions ⟨some 100, 15, false⟩).1.delay = some 500 ∧
      (clampRetryOptions ⟨some 100, 15, false⟩).1.max = 10 ∧
      (runCall false
          (createApiRetryOptions ⟨none, none, some ⟨some 100, 15, false⟩⟩)
          "m" "rc::m::rs::1" "m::u"
          (failEvents (fun _ => ⟨"boom", "ServerError"⟩) 0 11 :
            List (CallEvent Nat))).dispatches.length = 11 :=
  ⟨⟨by decide, by decide⟩,
    ((evoC9 ⟨some 100, 15, false⟩ ⟨none, none, some ⟨some 100, 15, false⟩⟩).1
      (by decide) rfl).1,
    ((evoC9 ⟨some 100, 15, false⟩
        ⟨none, none, some ⟨some 100, 15, false⟩⟩).2.1 (by decide)).1,
    (evoC9 ⟨some 100, 15, false⟩ ⟨none, none, some ⟨some 100, 15, false⟩⟩).2.2.2
      (by decide) rfl (fun _ => ⟨"boom", "ServerError"⟩) "m" "rc::m::rs::1"
      "m::u"⟩

/-- Counterexample to C2 as stated: on the ui -> rc await-loop the
dispatches carry no correlation id at all (the `fetchNui` post carries
only the wire name and the arguments; the generated `responseEvent` is
unused on that path), so "all carrying the same correlation id" fails
there. -/
theorem evoC2_counterexample :
    ((uiCall 1
          (fun _ => (RpcResponse.fail ⟨"boom", "ServerError"⟩ :
            RpcResponse Nat)) "rc::m::ui::3" false).1.all
        (fun d => d.corrId.isSome)) = false ∧
      (uiCall 1
          (fun _ => (RpcResponse.fail ⟨"boom", "ServerError"⟩ :
            RpcResponse Nat)) "rc::m::ui::3" false).1.length = 2 := by
  constructor
  · rfl
  · rfl

/-- Claim C2 (amended): with retry maximum N >= 1 and a remote that
answers every dispatch with a failure envelope, the request is dispatched
exactly N+1 times and then the call rejects with the final failure's
error, and it is never dispatched more than N+1 times — on the pub/sub
transports every dispatch carries the same correlation id, while the
ui -> rc dispatches carry none. -/
theorem evoC2_amended (α : Type) (ro : RetryOptions)
    (rpcName dispatchName corrId en : String) (errs : Nat → ErrorType)
    (hmax : 1 ≤ ro.max) :
    ((runCall false ro rpcName dispatchName corrId
          (failEvents errs 0 (ro.max + 1) :
            List (CallEvent α))).dispatches.length = ro.max + 1 ∧
      (∀ d ∈ (runCall false ro rpcName dispatchName corrId
          (failEvents errs 0 (ro.max + 1) : List (CallEvent α))).dispatches,
        d.corrId = some corrId) ∧
      outcome (runCall false ro rpcName dispatchName corrId
          (failEvents errs 0 (ro.max + 1) : List (CallEvent α))) =
        some (Settle.reject (errs ro.max))) ∧
    (∀ evs : List (CallEvent α),
      (runCall false ro rpcName dispatchName corrId evs).dispatches.length ≤
        ro.max + 1) ∧
    ((uiCall ro.max (fun i => (RpcResponse.fail (errs i) : RpcResponse α)) en
          false).1.length = ro.max + 1 ∧
      (uiCall ro.max (fun i => (RpcResponse.fail (errs i) : RpcResponse α)) en
          false).2 = some (Settle.reject (errs ro.max)) ∧
      ∀ d ∈ (uiCall ro.max
          (fun i => (RpcResponse.fail (errs i) : RpcResponse α)) en false).1,
        d.corrId = none) ∧
    (∀ (resp : Nat → RpcResponse α) (t : Bool),
      (uiCall ro.max resp en t).1.length ≤ ro.max + 1) := by
  have h := foldl_failEvents (α := α) false ro rpcName dispatchName corrId errs
    ro.max 0 (initCallState dispatchName corrId) rfl rfl
    (by simp [initCallState])
  have hne : ¬ (ro.max == 0) = true := by
    simp only [beq_iff_eq]
    omega
  have hloop := uiRetryLoop_fail (α := α) ro.max errs en ro.max 0 (by omega) hmax
  have huic : uiCall ro.max
      (fun i => (RpcResponse.fail (errs i) : RpcResponse α)) en false =
      (uiDispatch en :: List.replicate ro.max (uiDispatch en),
        some (Settle.reject (errs ro.max))) := by
    unfold uiCall
    simp only [Bool.false_eq_true, if_false]
    simp only [hne, if_false]
    rw [hloop]
    simp
  refine ⟨⟨?_, ?_, ?_⟩, ?_, ⟨?_, ?_, ?_⟩, ?_⟩
  · unfold runCall
    rw [h]
    simp [initCallState]
  · unfold runCall
    rw [h]
    intro d hd
    simp only [initCallState, List.cons_append, List.nil_append,
      List.mem_cons, List.mem_replicate] at hd
    rcases hd with hd | hd
    · rw [hd]
    · rw [hd.2]
  · unfold runCall
    rw [h]
    simp [outcome, initCallState]
  · intro evs
    exact runCall_dispatch_le false ro rpcName dispatchName corrId evs
  · rw [huic]
    simp
  · rw [huic]
  · rw [huic]
    intro d hd
    simp only [List.mem_cons, List.mem_replicate] at hd
    rcases hd with hd | hd
    · rw [hd]
      rfl
    · rw [hd.2]
      rfl
  · intro resp t
    exact uiCall_dispatch_le ro.max resp en t

/-- Witness for C2 (amended) at N = 2: three dispatches then rejection
with the final error, on both transports. -/
theorem evoC2_witness :
    (1 ≤ (⟨some 1000, 2, false⟩ : RetryOptions).max) ∧
      (runCall false ⟨some 1000, 2, false⟩ "m" "rc::m::rs::1" "m::u"
          (failEvents (fun _ => ⟨"boom", "ServerError"⟩) 0 3 :
            List (CallEvent Nat))).dispatches.length = 3 ∧
      (uiCall 2
          (fun _ => (RpcResponse.fail ⟨"boom", "ServerError"⟩ :
            RpcResponse Nat)) "rc::m::ui::3" false).1.length = 3 :=
  ⟨by decide,
    (evoC2_amended Nat ⟨some 1000, 2, false⟩ "m" "rc::m::rs::1" "m::u"
      "rc::m::ui::3" (fun _ => ⟨"boom", "ServerError"⟩) (by decide)).1.1,
    (evoC2_amended Nat ⟨some 1000, 2, false⟩ "m" "rc::m::rs::1" "m::u"
      "rc::m::ui::3" (fun _ => ⟨"boom", "ServerError"⟩) (by decide)).2.2.1.1⟩

/-- Counterexample to C3 as stated: with no retry budget, a failure
envelope arriving before the deadline settles the call with the handler's
error, so although no successful response was processed within the
timeout, the delivered outcome is not of type EvoTimeoutError. -/
theorem evoC3_counterexample :
    outcome (runCall false ⟨some 1000, 0, false⟩ "m" "rc::m::rs::1" "m::u"
        [CallEvent.response
            (RpcResponse.fail ⟨"handler failed", "ServerError"⟩),
          CallEvent.timeoutFire] : CallState Nat) =
      some (Settle.reject ⟨"handler failed", "ServerError"⟩) ∧
    "ServerError" ≠ "EvoTimeoutError" := by
  constructor
  · rfl
  · decide

/-- Claim C3 (amended): if no response processed before the deadline has
settled the call (successfully or by exhausting the retry budget), the
call rejects with the EvoTimeoutError payload when the timer fires, every
response arriving after the timeout is discarded (no settlement attempt,
no dispatch), the delivered outcome is the single timeout rejection, and
on the ui -> rc path a response that finds `didTimedOut` already latched
produces no settlement attempt at all. -/
theorem evoC3_amended (α : Type) (onceFlag : Bool) (ro : RetryOptions)
    (rpcName dispatchName corrId : String) (pre post : List (RpcResponse α))
    (hnone : (runCall onceFlag ro rpcName dispatchName corrId
        (pre.map CallEvent.response)).settles = []) :
    (runCall onceFlag ro rpcName dispatchName corrId
        (pre.map CallEvent.response ++
          CallEvent.timeoutFire :: post.map CallEvent.response)).settles =
      [Settle.reject (timeoutErrorFor rpcName)] ∧
    outcome (runCall onceFlag ro rpcName dispatchName corrId
        (pre.map CallEvent.response ++
          CallEvent.timeoutFire :: post.map CallEvent.response)) =
      some (Settle.reject (timeoutErrorFor rpcName)) ∧
    (runCall onceFlag ro rpcName dispatchName corrId
        (pre.map CallEvent.response ++
          CallEvent.timeoutFire :: post.map CallEvent.response)).dispatches =
      (runCall onceFlag ro rpcName dispatchName corrId
        (pre.map CallEvent.response)).dispatches ∧
    ∀ (max2 : Nat) (resp : Nat → RpcResponse α) (en2 : String),
      uiCall max2 resp en2 true = ([uiDispatch en2], none) := by
  have hflags := respFold_no_settle onceFlag ro rpcName dispatchName corrId pre
    (initCallState dispatchName corrId) rfl rfl rfl hnone
  have hsettles0 : ((pre.map CallEvent.response).foldl
      (stepEvent onceFlag ro rpcName dispatchName corrId)
      (initCallState dispatchName corrId)).settles = [] := hnone
  have hstep : stepEvent onceFlag ro rpcName dispatchName corrId
      ((pre.map CallEvent.response).foldl
        (stepEvent onceFlag ro rpcName dispatchName corrId)
        (initCallState dispatchName corrId)) CallEvent.timeoutFire =
      timeoutFireStep rpcName
        ((pre.map CallEvent.response).foldl
          (stepEvent onceFlag ro rpcName dispatchName corrId)
          (initCallState dispatchName corrId)) := by
    simp [stepEvent, hflags.2.2]
  have hrun : runCall onceFlag ro rpcName dispatchName corrId
      (pre.map CallEvent.response ++
        CallEvent.timeoutFire :: post.map CallEvent.response) =
      timeoutFireStep rpcName
        ((pre.map CallEvent.response).foldl
          (stepEvent onceFlag ro rpcName dispatchName corrId)
          (initCallState dispatchName corrId)) := by
    unfold runCall
    rw [List.foldl_append, List.foldl_cons, hstep]
    exact respFold_inert onceFlag ro rpcName dispatchName corrId post _ rfl
  refine ⟨?_, ?_, ?_, ?_⟩
  · rw [hrun]
    simp [timeoutFireStep, hsettles0]
  · rw [hrun]
    simp [outcome, timeoutFireStep, hsettles0]
  · rw [hrun]
    rfl
  · intro max2 resp en2
    rfl

/-- Witness for C3 (amended): no response before the deadline, one late
failure after it — the outcome is the timeout rejection. -/
theorem evoC3_witness :
    (runCall false ⟨some 1000, 0, false⟩ "m" "rc::m::rs::1" "m::u"
        (([] : List (RpcResponse Nat)).map CallEvent.response)).settles =
      [] ∧
    outcome (runCall false ⟨some 1000, 0, false⟩ "m" "rc::m::rs::1" "m::u"
        (([] : List (RpcResponse Nat)).map CallEvent.response ++
          CallEvent.timeoutFire ::
            ([RpcResponse.fail ⟨"late", "ServerError"⟩] :
              List (RpcResponse Nat)).map CallEvent.response)) =
      some (Settle.reject (timeoutErrorFor "m")) :=
  ⟨rfl,
    (evoC3_amended Nat false ⟨some 1000, 0, false⟩ "m" "rc::m::rs::1" "m::u"
      [] [RpcResponse.fail ⟨"late", "ServerError"⟩] rfl).2.1⟩

/-- Claim C1 (code-bug evaluation): in `createClientAPI`, a first
successful call of a `once` method marks it consumed, and a second call is
rejected with the EvoOnceError payload — but because the once-check's
`reject` is not followed by a `return`, the second call still arms the
timer and emits the request over the transport, contradicting the
"performs no transport dispatch" part of the claim. -/
theorem evoC1_code_bug :
    ((clientAPICall true false ⟨some 1000, 0, false⟩ "m" "m::u1"
          (Except.ok ())
          [CallEvent.response (RpcResponse.ok (7 : Nat))]).onceAdded = true ∧
      outcome (clientAPICall true false ⟨some 1000, 0, false⟩ "m" "m::u1"
          (Except.ok ())
          [CallEvent.response (RpcResponse.ok (7 : Nat))]) =
        some (Settle.resolve 7)) ∧
    (outcome (clientAPICall true true ⟨some 1000, 0, false⟩ "m" "m::u2"
          (Except.ok ()) ([] : List (CallEvent Nat))) =
        some (Settle.reject (onceErrorFor "m")) ∧
      (clientAPICall true true ⟨some 1000, 0, false⟩ "m" "m::u2"
          (Except.ok ()) ([] : List (CallEvent Nat))).dispatches =
        [⟨"m", some "m::u2"⟩] ∧
      (clientAPICall true true ⟨some 1000, 0, false⟩ "m" "m::u2"
          (Except.ok ()) ([] : List (CallEvent Nat))).dispatches ≠ []) := by
  refine ⟨⟨rfl, rfl⟩, rfl, rfl, ?_⟩
  decide

/-- Claim C4 (code-bug evaluation): on `Contract.createApi` a validation
failure produces no dispatch but also no settlement attempt whatsoever —
the promise never rejects with the validator's error (nor with anything
else: the swallowed executor exception and the faulting timer callback
leave it pending forever), contradicting the claim's immediate rejection;
the legacy `createClientAPI`, which wraps validation in try/catch, does
reject immediately with the validator's error and dispatches nothing. -/
theorem evoC4_code_bug (e : ErrorType) (m : MethodSpec) (onceFlag : Bool)
    (ro : RetryOptions) (rpcName rpcEventName corrId : String)
    (evs : List (CallEvent Nat)) :
    ((contractApiCall m rpcName rpcEventName corrId (Except.error e)
          evs).settles = [] ∧
      (contractApiCall m rpcName rpcEventName corrId (Except.error e)
          evs).dispatches = [] ∧
      outcome (contractApiCall m rpcName rpcEventName corrId (Except.error e)
          evs) = none) ∧
    (outcome (clientAPICall onceFlag false ro rpcName corrId (Except.error e)
          evs) = some (Settle.reject e) ∧
      (clientAPICall onceFlag false ro rpcName corrId (Except.error e)
          evs).dispatches = []) := by
  refine ⟨⟨rfl, rfl, rfl⟩, ?_, rfl⟩
  simp [clientAPICall, outcome]

/-- Claim C5 (code-bug evaluation): on the ui -> rc path a success
envelope answering the initial dispatch makes the call resolve with the
WHOLE envelope (`resolve(res)`), not with its data field — while the
pub/sub path and even the ui retry path resolve with the data field, as
the claim states for every pair. -/
theorem evoC5_code_bug :
    ((uiCall 0 (fun _ => (RpcResponse.ok (42 : Nat))) "rc::getU::ui::1"
          false).2 =
        some (Settle.resolve (UiVal.envelope (RpcResponse.ok 42))) ∧
      (uiCall 0 (fun _ => (RpcResponse.ok (42 : Nat))) "rc::getU::ui::1"
          false).2 ≠ some (Settle.resolve (UiVal.data 42))) ∧
    outcome (runCall false ⟨some 1000, 0, false⟩ "getU" "rs::getU::rc::1"
        "getU::u" [CallEvent.response (RpcResponse.ok (42 : Nat))]) =
      some (Settle.resolve 42) ∧
    (uiCall 1
        (fun i => if i == 0 then RpcResponse.fail ⟨"boom", "ServerError"⟩
          else RpcResponse.ok (42 : Nat)) "rc::getU::ui::1" false).2 =
      some (Settle.resolve (UiVal.data 42)) := by
  refine ⟨⟨rfl, ?_⟩, rfl, rfl⟩
  decide

/-- Counterexample to C7 as stated: when the retry budget is exhausted and
the call rejects with the handler's error, the response handler stays
registered and the deadline timer stays pending — the exhausted-retry
branch performs no teardown. -/
theorem evoC7_counterexample :
    ((runCall false ⟨some 1000, 0, false⟩ "m" "rc::m::rs::1" "m::u"
        [CallEvent.response (RpcResponse.fail ⟨"boom", "ServerError"⟩)] :
        CallState Nat)).handlerRegistered = true ∧
      ((runCall false ⟨some 1000, 0, false⟩ "m" "rc::m::rs::1" "m::u"
          [CallEvent.response (RpcResponse.fail ⟨"boom", "ServerError"⟩)] :
          CallState Nat)).timerPending = true ∧
      outcome (runCall false ⟨some 1000, 0, false⟩ "m" "rc::m::rs::1" "m::u"
          [CallEvent.response (RpcResponse.fail ⟨"boom", "ServerError"⟩)] :
          CallState Nat) =
        some (Settle.reject ⟨"boom", "ServerError"⟩) := by
  refine ⟨rfl, rfl, rfl⟩

/-- Claim C7 (amended): a success response tears the pending call down
(handler deregistered, timer cleared), the timeout firing tears it down
(handler deregistered, timer no longer pending, latch set) — but the
exhausted-retry rejection performs no teardown: the handler remains
registered, the timer remains pending, and only the rejection is
appended; teardown then happens when the timer later fires. -/
theorem evoC7_amended (α : Type) (onceFlag : Bool) (ro : RetryOptions)
    (rpcName dispatchName corrId : String) (st : CallState α) (d : α)
    (e : ErrorType) (hdt : st.didTimedOut = false)
    (hreg : st.handlerRegistered = true) :
    ((responseEventHandler onceFlag ro dispatchName corrId st
          (RpcResponse.ok d)).handlerRegistered = false ∧
      (responseEventHandler onceFlag ro dispatchName corrId st
          (RpcResponse.ok d)).timerPending = false) ∧
    ((timeoutFireStep rpcName st).handlerRegistered = false ∧
      (timeoutFireStep rpcName st).timerPending = false ∧
      (timeoutFireStep rpcName st).didTimedOut = true) ∧
    (¬(0 < ro.max ∧ st.retrysCount < ro.max) →
      (responseEventHandler onceFlag ro dispatchName corrId st
          (RpcResponse.fail e)).handlerRegistered = true ∧
        (responseEventHandler onceFlag ro dispatchName corrId st
          (RpcResponse.fail e)).timerPending = st.timerPending ∧
        (responseEventHandler onceFlag ro dispatchName corrId st
          (RpcResponse.fail e)).settles = st.settles ++ [Settle.reject e]) := by
  refine ⟨?_, ⟨rfl, rfl, rfl⟩, ?_⟩
  · constructor <;> simp [responseEventHandler, hdt]
  · intro hno
    have hcond : (decide (ro.max > 0) && decide (st.retrysCount < ro.max)) =
        false := by
      cases h2 : (decide (ro.max > 0) && decide (st.retrysCount < ro.max)) with
      | false => rfl
      | true =>
          simp only [Bool.and_eq_true, decide_eq_true_eq] at h2
          omega
    refine ⟨?_, ?_, ?_⟩ <;> simp [responseEventHandler, hdt, hcond, hreg]

/-- Witness for C7 (amended) at a freshly dispatched call with no retry
budget. -/
theorem evoC7_witness :
    ((initCallState "rc::m::rs::1" "m::u" : CallState Nat).didTimedOut =
        false ∧
      (initCallState "rc::m::rs::1" "m::u" : CallState Nat).handlerRegistered =
        true ∧
      ¬(0 < (⟨some 1000, 0, false⟩ : RetryOptions).max ∧
        (initCallState "rc::m::rs::1" "m::u" : CallState Nat).retrysCount <
          (⟨some 1000, 0, false⟩ : RetryOptions).max)) ∧
      (responseEventHandler false ⟨some 1000, 0, false⟩ "rc::m::rs::1" "m::u"
          (initCallState "rc::m::rs::1" "m::u" : CallState Nat)
          (RpcResponse.fail ⟨"boom", "ServerError"⟩)).handlerRegistered =
        true ∧
      (responseEventHandler false ⟨some 1000, 0, false⟩ "rc::m::rs::1" "m::u"
          (initCallState "rc::m::rs::1" "m::u" : CallState Nat)
          (RpcResponse.ok (0 : Nat))).handlerRegistered = false :=
  ⟨⟨rfl, rfl, by decide⟩,
    ((evoC7_amended Nat false ⟨some 1000, 0, false⟩ "m" "rc::m::rs::1" "m::u"
        (initCallState "rc::m::rs::1" "m::u") 0 ⟨"boom", "ServerError"⟩ rfl
        rfl).2.2 (by decide)).1,
    (evoC7_amended Nat false ⟨some 1000, 0, false⟩ "m" "rc::m::rs::1" "m::u"
        (initCallState "rc::m::rs::1" "m::u") 0 ⟨"boom", "ServerError"⟩ rfl
        rfl).1.1⟩

/-- Counterexample to C8 as stated: `createApi` mutates the stored
contract — a method with `retryOptions = {delay: 100, max: 0}` does not
have the same spec after `createApi` as before (its delay is clamped to
500 in place). -/
theorem evoC8_counterexample :
    createApiContractEffect
        [("m", ⟨none, none, some ⟨some 100, 0, false⟩⟩)] ≠
      [("m", ⟨none, none, some ⟨some 100, 0, false⟩⟩)] := by
  decide

/-- Claim C8 (amended): `createApi` leaves every MethodSpec field other
than `retryOptions` unchanged; a method with no declared `retryOptions`,
or with options the clamp leaves alone (delay not below 500 or
`forceDelay`, max at most 10), is fully unchanged; a declared
`retryOptions` object is replaced in place by its clamped value. -/
theorem evoC8_amended (m : MethodSpec) :
    ((createApiSpecEffect m).args = m.args ∧
      (createApiSpecEffect m).returns = m.returns) ∧
    (m.retryOptions = none → createApiSpecEffect m = m) ∧
    (∀ ro, m.retryOptions = some ro →
      (createApiSpecEffect m).retryOptions = some (clampRetryOptions ro).1) ∧
    (∀ ro, m.retryOptions = some ro → retryOptionsInRange ro →
      createApiSpecEffect m = m) := by
  refine ⟨?_, ?_, ?_, ?_⟩
  · cases hm : m.retryOptions <;> constructor <;>
      simp [createApiSpecEffect, hm]
  · intro hm
    simp [createApiSpecEffect, hm]
  · intro ro hm
    simp [createApiSpecEffect, hm]
  · intro ro hm hr
    cases m with
    | mk a r o =>
        simp only at hm
        subst hm
        simp [createApiSpecEffect, clampRetryOptions_inRange ro hr]

/-- Witness for C8 (amended) at an in-range spec and at a clamped spec. -/
theorem evoC8_witness :
    ((⟨none, none, some ⟨some 1000, 2, false⟩⟩ : MethodSpec).retryOptions =
        some ⟨some 1000, 2, false⟩ ∧
      retryOptionsInRange ⟨some 1000, 2, false⟩) ∧
      createApiSpecEffect ⟨none, none, some ⟨some 1000, 2, false⟩⟩ =
        ⟨none, none, some ⟨some 1000, 2, false⟩⟩ ∧
      (createApiSpecEffect ⟨none, none, some ⟨some 100, 0, false⟩⟩).retryOptions =
        some (clampRetryOptions ⟨some 100, 0, false⟩).1 :=
  ⟨⟨rfl, by constructor <;> decide⟩,
    (evoC8_amended ⟨none, none, some ⟨some 1000, 2, false⟩⟩).2.2.2
      ⟨some 1000, 2, false⟩ rfl (by constructor <;> decide),
    (evoC8_amended ⟨none, none, some ⟨some 100, 0, false⟩⟩).2.2.1
      ⟨some 100, 0, false⟩ rfl⟩

/-- Counterexample to C10 as stated: on the (rc, ui) listener pair the
`nuiCallback` never runs the declared validator — with a validator that
rejects everything, the handler is still invoked on the raw arguments and
its success envelope is sent back instead of a validation-failure
envelope. -/
theorem evoC10_counterexample :
    (nuiCallbackRun
        (some (fun _ : Nat =>
          (Except.error ⟨"invalid args", "ZodError"⟩ : Except ErrorType Nat)))
        (fun n => (Except.ok (n + 1) : Except ErrorType Nat))
        5).handlerInvoked = true ∧
      (nuiCallbackRun
        (some (fun _ : Nat =>
          (Except.error ⟨"invalid args", "ZodError"⟩ : Except ErrorType Nat)))
        (fun n => (Except.ok (n + 1) : Except ErrorType Nat))
        5).sent = RpcResponse.ok 6 ∧
      (nuiCallbackRun
        (some (fun _ : Nat =>
          (Except.error ⟨"invalid args", "ZodError"⟩ : Except ErrorType Nat)))
        (fun n => (Except.ok (n + 1) : Except ErrorType Nat))
        5).sent ≠ RpcResponse.fail ⟨"invalid args", "ZodError"⟩ := by
  refine ⟨rfl, rfl, ?_⟩
  decide

/-- Claim C10 (amended): on the pub/sub listener pairs (rs,rc) and
(rc,rs), inbound arguments are validated before the handler runs and a
validation failure is sent back as a structured failure envelope without
invoking the handler; on the (rc,ui) pair the arguments are never
validated — the result is independent of any declared validator and the
handler is always invoked (its own failures are still returned as
envelopes). -/
theorem evoC10_amended (α β γ : Type) (v : β → Except ErrorType γ)
    (handler : Option γ → Except ErrorType α) (args : β) (e : ErrorType)
    (hv : v args = Except.error e) :
    listenerCallbackRun (some v) handler args =
        { sent := RpcResponse.fail e, handlerInvoked := false } ∧
      ∀ (vo vo2 : Option (β → Except ErrorType β))
        (hn : β → Except ErrorType α),
        nuiCallbackRun vo hn args = nuiCallbackRun vo2 hn args ∧
          (nuiCallbackRun vo hn args).handlerInvoked = true := by
  constructor
  · simp [listenerCallbackRun, hv]
  · intro vo vo2 hn
    constructor
    · rfl
    · unfold nuiCallbackRun
      cases hn args <;> rfl

/-- Witness for C10 (amended) with an always-rejecting validator. -/
theorem evoC10_witness :
    ((fun _ : Nat =>
        (Except.error ⟨"invalid args", "ZodError"⟩ : Except ErrorType Nat))
          5 = Except.error ⟨"invalid args", "ZodError"⟩) ∧
      listenerCallbackRun
          (some (fun _ : Nat =>
            (Except.error ⟨"invalid args", "ZodError"⟩ :
              Except ErrorType Nat)))
          (fun _ => (Except.ok (0 : Nat) : Except ErrorType Nat)) 5 =
        { sent := RpcResponse.fail ⟨"invalid args", "ZodError"⟩,
          handlerInvoked := false } ∧
      (nuiCallbackRun
          (some (fun _ : Nat =>
            (Except.error ⟨"invalid args", "ZodError"⟩ :
              Except ErrorType Nat)))
          (fun n => (Except.ok (n + 1) : Except ErrorType Nat))
          5).handlerInvoked = true :=
  ⟨rfl,
    (evoC10_amended Nat Nat Nat
        (fun _ => Except.error ⟨"invalid args", "ZodError"⟩)
        (fun _ => Except.ok 0) 5 ⟨"invalid args", "ZodError"⟩ rfl).1,
    ((evoC10_amended Nat Nat Nat
        (fun _ => Except.error ⟨"invalid args", "ZodError"⟩)
        (fun _ => Except.ok 0) 5 ⟨"invalid args", "ZodError"⟩ rfl).2
      (some (fun _ => Except.error ⟨"invalid args", "ZodError"⟩))
      none (fun n => Except.ok (n + 1))).2⟩

end Evo
